import Mathlib

/-!
Shallow embedding of the pyweather multi-provider forecast aggregation core
(package `pyweather`: `forecast.py`, `utils/time.py`, and the six provider
adapter modules under `api/`).

Modelling conventions:
* Instants and local-hour strings are modelled as natural numbers counting
  whole hours (or, for Accuweather epoch values, the same number reused);
  the pendulum formatting functions are injective renderings of one instant,
  so every `format_*` becomes the identity on the instant and string equality
  of rendered timestamps becomes equality of the numbers.
* Python `Decimal` values are modelled as exact rationals; `round(x, 2)`
  with the default `Decimal` context is round-half-to-even on hundredths,
  embedded as `py_round_2`.
* A Python function that can raise is embedded as `Except PyErr`; each
  exception class of `exceptions.py` is one constructor, and the dynamic
  errors the code can actually hit (`NameError` from evaluating an unbound
  or misspelled name, `ZeroDivisionError`, `KeyError`) are constructors too.
-/

/-- The exception kinds of `pyweather/exceptions.py`, together with the
dynamic Python errors reachable in the embedded code. `outOfRange` carries
the target and the latest hour named in the message it is raised with. -/
inductive PyErr : Type
  | httpError (service : String)
  | badResponse (service : String) (key : String)
  | unexpectedFormat (service : String) (key : String)
  | outOfRange (service : String) (target : Nat) (latest : Nat)
  | missingAPIKey (key : String)
  | nameError (name : String)
  | keyError (key : String)
  | zeroDivisionError
  deriving DecidableEq, Repr

instance {ε α : Type} [DecidableEq ε] [DecidableEq α] : DecidableEq (Except ε α) := by
  intro x y
  cases x <;> cases y
  case ok.ok a b =>
    exact if h : a = b then .isTrue (by rw [h]) else .isFalse (by intro hc; cases hc; exact h rfl)
  case error.error a b =>
    exact if h : a = b then .isTrue (by rw [h]) else .isFalse (by intro hc; cases hc; exact h rfl)
  case ok.error a b => exact .isFalse (by intro hc; cases hc)
  case error.ok a b => exact .isFalse (by intro hc; cases hc)

/-- Round-half-to-even to an integer, the default rounding of the Python
`Decimal` context used by `round(Decimal, n)`. -/
def round_half_even (q : ℚ) : ℤ :=
  let f : ℤ := ⌊q⌋
  let r : ℚ := q - (f : ℚ)
  if r < 1/2 then f
  else if 1/2 < r then f + 1
  else if f % 2 = 0 then f else f + 1

/-- `round(x, DECIMAL_PLACES)` with the default `DECIMAL_PLACES = 2`. -/
def py_round_2 (q : ℚ) : ℚ := (round_half_even (q * 100) : ℚ) / 100

/-- The normalized per-provider forecast dictionary. Fields that a given
provider leaves out or sets to `None` are `none`; `service` is set by the
aggregator after a successful retrieve. -/
structure Entry where
  ok : Bool
  time_utc : Option Nat := none
  temperature_celcius : Option ℚ := none
  forecast_age_hours : Option ℚ := none
  forecast_age_decaminutes : Option ℚ := none
  forecast_issue_time : Option Nat := none
  service : Option String := none
  deriving DecidableEq, Repr

/-! ## utils/time.py : the hour-range expansion -/

/-- `hours_between_datetimes(start, end)` is `end.diff(start).in_hours()`;
a pendulum diff is an absolute duration, so this is the absolute whole-hour
difference. -/
def hours_between_datetimes (start e : Nat) : Nat := max (e - start) (start - e)

/-- `count_to(n)` = `range(1, n + 1)`. -/
def count_to (n : Nat) : List Nat := (List.range n).map (· + 1)

/-- `local_string_to_range_of_local_strings` of `utils/time.py`.
`time_local_end = none` models not supplying the argument (a supplied date
string is always truthy); `next_n_hours` follows Python truthiness, where
both `None` and `0` are falsy. The returned local-hour strings are modelled
by their instants. -/
def local_string_to_range_of_local_strings
    (time_local_start : Nat) (time_local_end : Option Nat := none)
    (next_n_hours : Option Nat := none) : List Nat :=
  if time_local_end = none ∧ (next_n_hours = none ∨ next_n_hours = some 0) then []
  else
    let n : Nat :=
      match time_local_end with
      | some e => hours_between_datetimes time_local_start e
      | none => next_n_hours.getD 0
    time_local_start :: (count_to (n - 1)).map (fun i => time_local_start + i)

/-! ## forecast.py : the single-hour aggregator `Forecast` -/

/-- A provider as the single-hour aggregator sees it: a module name and the
outcome of its `retrieve(location, local_date)` call for the fixed location
and hour of this aggregation pass. -/
structure PyService where
  name : String
  retrieve : Except PyErr Entry

/-- `Forecast._fetch_forecast`: calls each provider in order; a successful
response gets its `service` key set and is appended; an `OutOfRange` raise
is caught — the handler binds a local `response = {"ok": False}` dictionary
that is never appended to the list — and every other exception propagates.
Returns the `services` and `forecasts` lists. -/
def Forecast_fetch_forecast : List PyService → Except PyErr (List String × List Entry)
  | [] => .ok ([], [])
  | svc :: rest =>
    match svc.retrieve with
    | .ok r =>
      match Forecast_fetch_forecast rest with
      | .ok (names, entries) => .ok (svc.name :: names, { r with service := some svc.name } :: entries)
      | .error e => .error e
    | .error (.outOfRange _ _ _) => Forecast_fetch_forecast rest
    | .error e => .error e

/-- The aggregate statistics dictionary of `Forecast._compute_aggregates`. -/
structure Agg where
  average : ℚ
  max : ℚ
  min : ℚ
  deriving DecidableEq, Repr

/-- `Forecast._compute_aggregates`: reads `temperature_celcius` from every
collected forecast (a missing key would be a `KeyError`), then computes
`round(sum / len, 2)`, `max` and `min`. With zero collected forecasts the
division `sum([]) / len([])` raises `ZeroDivisionError`. -/
def Forecast_compute_aggregates (forecasts : List Entry) : Except PyErr Agg :=
  match forecasts.mapM (fun e =>
      match e.temperature_celcius with
      | some t => Except.ok t
      | none => Except.error (PyErr.keyError "temperature_celcius")) with
  | .error e => .error e
  | .ok temperatures =>
    match temperatures with
    | [] => .error .zeroDivisionError
    | t :: ts =>
      .ok { average := py_round_2 ((t :: ts).sum / ((t :: ts).length : ℚ))
            max := ts.foldl Max.max t
            min := ts.foldl Min.min t }

/-- The `Forecast` constructor: `_fetch_forecast` then `_compute_aggregates`. -/
def Forecast_run (services : List PyService) :
    Except PyErr ((List String × List Entry) × Agg) :=
  match Forecast_fetch_forecast services with
  | .error e => .error e
  | .ok detailed =>
    match Forecast_compute_aggregates detailed.2 with
    | .error e => .error e
    | .ok agg => .ok (detailed, agg)

/-! ## utils/conversions.py -/

/-- `farenheit_to_celcius`. Python computes `Decimal("5") / Decimal("9")`
to 28 significant digits; the quotient is modelled exactly. -/
def farenheit_to_celcius (t : ℚ) : ℚ := (t - 32) * (5 / 9)

/-- `celcius_to_farenheit`. -/
def celcius_to_farenheit (t : ℚ) : ℚ := t * (9 / 5) + 32

/-! ## utils/time.py : elapsed-time helpers (wall clock passed explicitly) -/

/-- `hours_since_utc_datetime(then)`: `pendulum.now().diff(then).in_hours()`,
an absolute whole-hour difference; the wall clock `now` is an explicit
argument of the embedding. -/
def hours_since_utc_datetime (now t0 : Nat) : Nat := max (now - t0) (t0 - now)

/-- `decaminutes_since_utc_datetime(then)`: `now.diff(then).in_minutes() / 10`
with true division, hence an exact tenth of the minute count. -/
def decaminutes_since_utc_datetime (now t0 : Nat) : ℚ :=
  (60 * (max (now - t0) (t0 - now)) : ℚ) / 10

/-! ## api/accuweather.py -/

/-- One element of the Accuweather hourly forecast list. `none` models a
missing dictionary key (the `KeyError` path of the source). -/
structure AccuForecast where
  epochDateTime : Option Nat := none
  temperatureValue : Option ℚ := none
  temperatureUnit : Option String := none
  deriving DecidableEq, Repr

/-- The `for forecast in forecasts` loop of `accuweather.find_in_document`,
with the last value bound to the loop-local `time` carried explicitly.
When the list is exhausted the `for`-`else` branch evaluates `time` to name
the latest hour; with an empty list `time` was never bound and evaluating
it raises `NameError`. -/
def accuweather_find_aux (target : Nat) :
    List AccuForecast → Option Nat → Except PyErr Entry
  | [], none => .error (.nameError "time")
  | [], some t => .error (.outOfRange "Accuweather" target t)
  | f :: rest, _ =>
    match f.epochDateTime with
    | none => .error (.badResponse "Accuweather" "EpochDateTime")
    | some time =>
      if time = target then
        match f.temperatureValue with
        | none => .error (.badResponse "Accuweather" "Temperature/Value")
        | some v =>
          match f.temperatureUnit with
          | none => .error (.badResponse "Accuweather" "Temparature/Unit")
          | some u =>
            if u ≠ "C" then .error (.unexpectedFormat "Accuweather" "unit == C")
            else .ok { ok := true, time_utc := some target,
                       temperature_celcius := some (py_round_2 v) }
      else accuweather_find_aux target rest (some time)

/-- `accuweather.find_in_document` on an already-fetched document (the JSON
hourly forecast list). -/
def accuweather_find_in_document (target : Nat) (document : List AccuForecast) :
    Except PyErr Entry :=
  accuweather_find_aux target document none

/-! ## api/met.py -/

/-- One element of the Met `timeSeries` list. -/
structure MetEntry where
  time : Option Nat := none
  screenTemperature : Option ℚ := none
  deriving DecidableEq, Repr

/-- The Met document after the `features[0].properties` drill-down; `none`
models the `KeyError` path for the respective key. -/
structure MetDoc where
  modelRunDate : Option Nat := none
  timeSeries : Option (List MetEntry) := none
  deriving DecidableEq, Repr

/-- The `for forecast in forecasts` loop of `met.find_in_document`. The
exhausted branch names the service "Accuweather", as the source does. -/
def met_find_aux (now target issue : Nat) :
    List MetEntry → Option Nat → Except PyErr Entry
  | [], none => .error (.nameError "time")
  | [], some t => .error (.outOfRange "Accuweather" target t)
  | f :: rest, _ =>
    match f.time with
    | none => .error (.badResponse "Met" "time")
    | some time =>
      if time = target then
        match f.screenTemperature with
        | none => .error (.badResponse "Met" "screenTemperature")
        | some v =>
          .ok { ok := true, time_utc := some target,
                temperature_celcius := some (py_round_2 v),
                forecast_age_hours := some (hours_since_utc_datetime now issue),
                forecast_age_decaminutes := some (decaminutes_since_utc_datetime now issue),
                forecast_issue_time := some issue }
      else met_find_aux now target issue rest (some time)

/-- `met.find_in_document`. -/
def met_find_in_document (now target : Nat) (doc : MetDoc) : Except PyErr Entry :=
  match doc.modelRunDate with
  | none => .error (.badResponse "Met" "features/properties/modelRunDate")
  | some issue =>
    match doc.timeSeries with
    | none => .error (.badResponse "Met" "features/properties/timeSeries")
    | some forecasts => met_find_aux now target issue forecasts none

/-! ## api/weathercom.py -/

/-- The Weather.com document after the `vt1hourlyForecast` drill-down;
`none` models an absent key (`dict.get` returning `None`). -/
structure WeathercomDoc where
  processTime : Option (List Nat) := none
  temperature : Option (List ℚ) := none
  deriving DecidableEq, Repr

/-- The `for hour, temperature in zip(...)` loop of
`weathercom.find_in_document`, last `hour` carried explicitly. -/
def weathercom_find_aux (target : Nat) :
    List (Nat × ℚ) → Option Nat → Except PyErr Entry
  | [], none => .error (.nameError "hour")
  | [], some h => .error (.outOfRange "Weather.com" target h)
  | (hour, temperature) :: rest, _ =>
    if hour = target then
      .ok { ok := true, time_utc := some target,
            temperature_celcius := some (py_round_2 temperature) }
    else weathercom_find_aux target rest (some hour)

/-- `weathercom.find_in_document`. Python truthiness makes both a missing
and an empty `processTime`/`temperature` list take the `BadResponse`
branches. -/
def weathercom_find_in_document (target : Nat) (doc : WeathercomDoc) :
    Except PyErr Entry :=
  match doc.processTime with
  | none => .error (.badResponse "Weather.com" "vt1hourlyForecast > processTime")
  | some [] => .error (.badResponse "Weather.com" "vt1hourlyForecast > processTime")
  | some (h :: hs) =>
    match doc.temperature with
    | none => .error (.badResponse "Weather.com" "vt1hourlyForecast > temperatures")
    | some [] => .error (.badResponse "Weather.com" "vt1hourlyForecast > temperatures")
    | some (t :: ts) =>
      if (h :: hs).length ≠ (t :: ts).length then
        .error (.unexpectedFormat "Weather.com" "Different number of hours and temperatures")
      else weathercom_find_aux target ((h :: hs).zip (t :: ts)) none

/-! ## api/gwc.py -/

/-- One element of a GWC `points` list. -/
structure GwcPoint where
  dataType : Option String := none
  value : Option ℚ := none
  deriving DecidableEq, Repr

/-- One element of the GWC `times` list. -/
structure GwcForecastTime where
  validDate : Option Nat := none
  points : Option (List GwcPoint) := none
  deriving DecidableEq, Repr

/-- The GWC document; `document.get("times", [])` defaults to the empty
list when the key is absent. -/
structure GwcDoc where
  times : Option (List GwcForecastTime) := none
  deriving DecidableEq, Repr

/-- `normalize_gwc` strips the timezone-abbreviation token from the
rendered string; on the instant itself it is the identity. -/
def normalize_gwc (hour : Nat) : Nat := hour

/-- The inner `for measurement in points` loop of `gwc.find_in_document`.
Python truthiness sends a missing or empty `dataType`, and a missing or
zero `value`, to the `BadResponse` branches. -/
def gwc_points_scan (target : Nat) : List GwcPoint → Except PyErr Entry
  | [] => .error (.unexpectedFormat "GWC" "Found no dataType in points with the name temp")
  | p :: rest =>
    match p.dataType with
    | none => .error (.badResponse "GWC" "times > points > dataType")
    | some dt =>
      if dt = "" then .error (.badResponse "GWC" "times > points > dataType")
      else if dt = "temp" then
        match p.value with
        | none => .error (.badResponse "GWC" "times > points > value")
        | some v =>
          if v = 0 then .error (.badResponse "GWC" "times > points > value")
          else .ok { ok := true, time_utc := some target,
                     temperature_celcius := some (py_round_2 (farenheit_to_celcius v)) }
      else gwc_points_scan target rest

/-- The outer `for forecast in forecasts` loop of `gwc.find_in_document`,
last `hour` carried explicitly; an empty `times` list leaves `hour` unbound
in the exhausted branch. -/
def gwc_find_aux (target : Nat) :
    List GwcForecastTime → Option Nat → Except PyErr Entry
  | [], none => .error (.nameError "hour")
  | [], some h => .error (.outOfRange "GWC" target h)
  | f :: rest, _ =>
    match f.validDate with
    | none => .error (.badResponse "GWC" "times > validDate")
    | some hour =>
      if normalize_gwc hour = target then
        match f.points with
        | none => .error (.badResponse "GWC" "times > points")
        | some [] => .error (.badResponse "GWC" "times > points")
        | some (p :: ps) => gwc_points_scan target (p :: ps)
      else gwc_find_aux target rest (some hour)

/-- `gwc.find_in_document`. -/
def gwc_find_in_document (target : Nat) (doc : GwcDoc) : Except PyErr Entry :=
  gwc_find_aux target (doc.times.getD []) none

/-! ## api/yrno.py -/

/-- The `model name="met_public_forecast"` metadata node. -/
structure YrnoModelMeta where
  runended : Option Nat := none
  deriving DecidableEq, Repr

/-- One `time` node of the `pointData` product. `temperature` is the value
of the nested `location / temperature id="TTT" unit="celsius"` attribute;
`none` models the `KeyError` path of the nested lookup. -/
structure YrnoTimeNode where
  datatype : String
  timeFrom : Nat
  timeTo : Nat
  temperature : Option ℚ := none
  deriving DecidableEq, Repr

/-- The parsed Yr.no XML document. -/
structure YrnoDoc where
  metadata : Option YrnoModelMeta := none
  pointData : Option (List YrnoTimeNode) := none
  deriving DecidableEq, Repr

/-- The BeautifulSoup search for the target hour in `yrno.find_in_document`:
`format_yrno` renders the target as the pair `(target, target + 1)` and the
`attrs` filter matches a node whose `from` and `to` attributes each equal
either element of the pair. -/
def yrno_time_node_matches (target : Nat) (nd : YrnoTimeNode) : Bool :=
  nd.datatype = "forecast" ∧
    (nd.timeFrom = target ∨ nd.timeFrom = target + 1) ∧
    (nd.timeTo = target ∨ nd.timeTo = target + 1)

/-- `yrno.find_in_document`. A missing `runended` attribute only constructs
a `BadResponse` without raising it, so the later use of `issue_time` raises
`NameError`; likewise a missing temperature value leaves `temperature`
unbound. When the rounded temperature is falsy (zero) the function returns
the bare `ok = False` dictionary. When no `time` node matches the target
pair the raised error is `BadResponse`, not `OutOfRange`. -/
def yrno_find_in_document (now target : Nat) (doc : YrnoDoc) : Except PyErr Entry :=
  match doc.metadata with
  | none => .error (.badResponse "Yr.no" "model name=met_public_forecast")
  | some meta =>
    match meta.runended with
    | none => .error (.nameError "issue_time")
    | some issue =>
      match doc.pointData with
      | none => .error (.badResponse "Yr.no" "product class=pointData")
      | some nodes =>
        match nodes.find? (yrno_time_node_matches target) with
        | none => .error (.badResponse "Yr.no" "time datatype=forecast")
        | some nd =>
          match nd.temperature with
          | none => .error (.nameError "temperature")
          | some v =>
            if py_round_2 v ≠ 0 then
              .ok { ok := true, time_utc := some target,
                    temperature_celcius := some (py_round_2 v),
                    forecast_age_hours := some (hours_since_utc_datetime now issue),
                    forecast_age_decaminutes := some (decaminutes_since_utc_datetime now issue),
                    forecast_issue_time := some issue }
            else .ok { ok := false }

/-! ## api/bom.py -/

/-- The raw text of one temperature cell, already lexed: the em-dash, a
numeral, or text `Decimal` cannot parse. -/
inductive RawTemp : Type
  | emDash
  | numeral (q : ℚ)
  | unparseable (s : String)
  deriving DecidableEq, Repr

/-- `bom.parse_string_temperature`: the em-dash yields `None`, a numeral
yields its `Decimal`, anything else raises `UnexpectedFormat`. -/
def parse_string_temperature : RawTemp → Except PyErr (Option ℚ)
  | .emDash => .ok none
  | .numeral q => .ok (some q)
  | .unparseable s =>
    .error (.unexpectedFormat "Bom.gov.au" ("Could not parse as decimal the temperature " ++ s))

/-- One `forecast-day collapsible` block of the BOM page, after the table
and row searches of `soup_to_forecast_object` have resolved: `times` is
`time_utc_strings` (the `thead` hour labels merged with the day date) and
`cells` is the `td` list of the air-temperature row. -/
structure BomDay where
  times : List Nat
  cells : List RawTemp
  deriving DecidableEq, Repr

/-- An element of the `forecasts` list built by `soup_to_forecast_object`. -/
structure BomEntry where
  time_utc : Nat
  temperature_celcius : ℚ
  deriving DecidableEq, Repr

/-- Python truthiness of a parsed temperature: `None` and `Decimal(0)` are
falsy, every other `Decimal` is truthy. -/
def bom_truthy : Option ℚ → Bool
  | none => false
  | some q => q ≠ 0

/-- The final `for time, temperature in zip(...)` loop of one day block:
keep a record only when the parsed temperature is truthy — the comment in
the source says the cell is empty because this time has passed. -/
def day_records (times : List Nat) (vals : List (Option ℚ)) : List BomEntry :=
  (times.zip vals).filterMap
    (fun p => if bom_truthy p.2 then some ⟨p.1, p.2.getD 0⟩ else none)

/-- The per-day part of `bom.soup_to_forecast_object`: parse the cells,
require as many hour labels as temperature cells — the failing branch
raises the misspelled name `BadReponse`, which is a `NameError` — then zip
and keep only the truthy temperatures. -/
def bom_process_days : List BomDay → Except PyErr (List BomEntry)
  | [] => .ok []
  | d :: rest =>
    match d.cells.mapM parse_string_temperature with
    | .error e => .error e
    | .ok temperature_values =>
      if d.times.length ≠ temperature_values.length then
        .error (.nameError "BadReponse")
      else
        match bom_process_days rest with
        | .error e => .error e
        | .ok tail => .ok (day_records d.times temperature_values ++ tail)

/-- The `for forecast in forecasts` search loop of `bom.retrieve`, last
`forecast` carried explicitly; the exhausted branch reads the last
`forecast["time_utc"]`, a `NameError` when the list was empty. -/
def bom_find (target : Nat) : List BomEntry → Option Nat → Except PyErr Entry
  | [], none => .error (.nameError "forecast")
  | [], some t => .error (.outOfRange "Bom.gov.au" target t)
  | f :: rest, _ =>
    if f.time_utc = target then
      .ok { ok := true, time_utc := some target,
            temperature_celcius := some (py_round_2 f.temperature_celcius) }
    else bom_find target rest (some f.time_utc)

/-- The extraction part of `bom.retrieve` (the module defines no
`find_in_document`): build the forecast object from the parsed day blocks,
then search it for the target hour. -/
def bom_extract (target : Nat) (days : List BomDay) : Except PyErr Entry :=
  match bom_process_days days with
  | .error e => .error e
  | .ok forecasts => bom_find target forecasts none

/-! ## forecast.py : the hour-range aggregator `HourlyForecast` -/

/-- A provider as the hour-range aggregator sees it: `retrieve_document`
takes the number of the attempt (0 for the first call, 1 for the retry
after rotation) and yields an opaque document identifier, and
`find_in_document` takes that document and a target hour. -/
structure RangeService where
  name : String
  retrieve_document : Nat → Except PyErr Nat
  find_in_document : Nat → Nat → Except PyErr Entry

/-- The observable effects of one hour-range aggregation pass. `rotate`
records the call `KeyHandler().refresh("ACCUWEATHER")`. Modelled from the
spec: the key-rotation collaborator (`utils/api_keys_rotation.KeyHandler`,
whose module is not part of the sources) is `rotate(providerId) -> void`,
best-effort, so its invocation is recorded as an event and has no further
semantics. -/
inductive Event : Type
  | fetchAttempt (service : String) (attempt : Nat)
  | rotate (key : String)
  deriving DecidableEq, Repr

/-- The mutable state of `HourlyForecast._fetch_forecast`: the `services`
name list, the `forecasts` mapping (hour to provider-name-to-entry), and
the effect trace. -/
structure HState where
  services : List String
  forecasts : List (Nat × List (String × Entry))
  events : List Event
  deriving DecidableEq, Repr

/-- Python `d[k] = v`: overwrite the value when the key exists, append the
pair otherwise. -/
def dict_insert {α β : Type} [DecidableEq α] (d : List (α × β)) (k : α) (v : β) :
    List (α × β) :=
  if d.any (fun p => p.1 == k) then d.map (fun p => if p.1 = k then (k, v) else p)
  else d ++ [(k, v)]

/-- The pre-population loop: `for hour in self.local_dates:
forecast_object["forecasts"][hour] = {}`. -/
def prepopulate_hours (dates : List Nat) : List (Nat × List (String × Entry)) :=
  dates.foldl (fun d h => dict_insert d h []) []

/-- `forecast_object["forecasts"][hour][service.__name__] = response`; the
hour key always exists because the same `local_dates` list populated it. -/
def set_hour_entry (forecasts : List (Nat × List (String × Entry)))
    (hour : Nat) (name : String) (e : Entry) : List (Nat × List (String × Entry)) :=
  forecasts.map (fun p => if p.1 = hour then (p.1, dict_insert p.2 name e) else p)

/-- The inner `for hour in self.local_dates` loop: a successful find gets
its `service` key set and is stored; `OutOfRange` is caught and the hour
skipped; every other exception propagates. -/
def process_hours (svc : RangeService) (doc : Nat) :
    List Nat → List (Nat × List (String × Entry)) →
      Except PyErr (List (Nat × List (String × Entry)))
  | [], fc => .ok fc
  | hour :: rest, fc =>
    match svc.find_in_document doc hour with
    | .ok r =>
      process_hours svc doc rest
        (set_hour_entry fc hour svc.name { r with service := some svc.name })
    | .error (.outOfRange _ _ _) => process_hours svc doc rest fc
    | .error e => .error e

/-- The outer `for service in self.services` loop of
`HourlyForecast._fetch_forecast`: append the service name, fetch the
document; on `HttpError` request a rotation of the `"ACCUWEATHER"` key and
retry the fetch once; if the retry also raises `HttpError` skip this
service; any other exception propagates. -/
def process_services (dates : List Nat) :
    List RangeService → HState → Except PyErr HState
  | [], st => .ok st
  | svc :: rest, st =>
    let st1 : HState :=
      { st with services := st.services ++ [svc.name],
                events := st.events ++ [.fetchAttempt svc.name 1] }
    match svc.retrieve_document 0 with
    | .ok doc =>
      match process_hours svc doc dates st1.forecasts with
      | .ok fc => process_services dates rest { st1 with forecasts := fc }
      | .error e => .error e
    | .error (.httpError _) =>
      let st2 : HState :=
        { st1 with events := st1.events ++ [.rotate "ACCUWEATHER", .fetchAttempt svc.name 2] }
      match svc.retrieve_document 1 with
      | .ok doc =>
        match process_hours svc doc dates st2.forecasts with
        | .ok fc => process_services dates rest { st2 with forecasts := fc }
        | .error e => .error e
      | .error (.httpError _) => process_services dates rest st2
      | .error e => .error e
    | .error e => .error e

/-- `HourlyForecast._fetch_forecast` on an explicit list of requested
hours: pre-populate every hour with an empty mapping, then run every
service. -/
def HourlyForecast_fetch_forecast (services : List RangeService) (dates : List Nat) :
    Except PyErr HState :=
  process_services dates services
    { services := [], forecasts := prepopulate_hours dates, events := [] }

/-- The `HourlyForecast` constructor: expand the requested local range,
then fetch. -/
def HourlyForecast_run (local_date_start : Nat) (local_date_end : Option Nat)
    (next_n_hours : Option Nat) (services : List RangeService) : Except PyErr HState :=
  HourlyForecast_fetch_forecast services
    (local_string_to_range_of_local_strings local_date_start local_date_end next_n_hours)

/-! ## Helper lemmas -/

lemma count_to_eq_range' (n : Nat) : count_to n = List.range' 1 n := by
  apply List.ext_getElem
  · simp [count_to]
  · intro i h1 h2
    simp [count_to, List.getElem_range'_1, Nat.add_comm]

lemma range_expand_end (s e : Nat) (h : s < e) :
    local_string_to_range_of_local_strings s (some e) none = List.range' s (e - s) := by
  unfold local_string_to_range_of_local_strings
  rw [if_neg (by simp)]
  have hb : hours_between_datetimes s e = e - s := by
    unfold hours_between_datetimes; omega
  simp only [hb, count_to_eq_range', List.map_add_range']
  have he : e - s = (e - s - 1) + 1 := by omega
  rw [he, List.range'_succ]
  simp

lemma fetch_forecast_all_out_of_range :
    ∀ (services : List PyService),
      (∀ svc ∈ services, ∃ s t l, svc.retrieve = .error (.outOfRange s t l)) →
      Forecast_fetch_forecast services = .ok ([], [])
  | [], _ => rfl
  | svc :: rest, h => by
    obtain ⟨s, t, l, hr⟩ := h svc (by simp)
    have hrest := fetch_forecast_all_out_of_range rest (fun x hx => h x (by simp [hx]))
    simp [Forecast_fetch_forecast, hr, hrest]

/-! ## Claim theorems: single-hour aggregation and the range expansion -/

/-- C1: the claim says a provider raising `OutOfRange` is recorded in the
returned records list as an entry with `ok = false`. The code catches the
exception and binds the dictionary `response = ...ok: False...` but never
appends it, so the records list holds only the successful providers and no
`ok = false` entry at all: here the failing provider P1 leaves no trace in
either returned list. -/
theorem C1_failed_provider_not_recorded :
    Forecast_fetch_forecast
      [{ name := "P1", retrieve := .error (.outOfRange "P1" 3 1) },
       { name := "P2",
         retrieve := .ok { ok := true, time_utc := some 3,
                           temperature_celcius := some (143/10) } }] =
    .ok (["P2"],
      [{ ok := true, time_utc := some 3, temperature_celcius := some (143/10),
         service := some "P2" }]) := by
  rfl

/-- C4 counterexample: with start 2020-04-26T13:00 and end 2020-04-26T16:00
(modelled as hours 13 and 16) the produced sequence has 3 elements, not
the whole-hour difference plus one, and the end hour is not included. -/
theorem C4_counterexample :
    (local_string_to_range_of_local_strings 13 (some 16) none).length ≠ (16 - 13) + 1 ∧
    16 ∉ local_string_to_range_of_local_strings 13 (some 16) none := by
  decide

/-- C4 (amended): for start and end with end strictly later,
`local_string_to_range_of_local_strings` produces every hour from start
inclusive up to but excluding end, and its length equals the whole-hour
difference between start and end (not that difference plus one). -/
theorem C4_expand_hour_range_end_exclusive (s e : Nat) (h : s < e) :
    local_string_to_range_of_local_strings s (some e) none = List.range' s (e - s) ∧
    (local_string_to_range_of_local_strings s (some e) none).length = e - s ∧
    ∀ x, x ∈ local_string_to_range_of_local_strings s (some e) none ↔ s ≤ x ∧ x < e := by
  have hr := range_expand_end s e h
  refine ⟨hr, ?_, ?_⟩
  · rw [hr, List.length_range']
  · intro x
    rw [hr, List.mem_range'_1]
    omega

/-- C4 witness: hours 13 to 16 give exactly the three hours 13, 14, 15. -/
theorem C4_expand_hour_range_end_exclusive_witness :
    local_string_to_range_of_local_strings 13 (some 16) none = [13, 14, 15] :=
  ((C4_expand_hour_range_end_exclusive 13 16 (by decide)).1).trans (by decide)

/-- C2 counterexample: when the only provider raises `OutOfRange`, the
aggregation fails with `ZeroDivisionError` — `sum([]) / len([])` — and not
with a `NoData` error; no `NoData` exception exists in `exceptions.py`. -/
theorem C2_counterexample :
    Forecast_run [{ name := "Q1", retrieve := .error (.outOfRange "Q1" 7 2) }] =
      .error .zeroDivisionError := by
  rfl

/-- C2 (amended): whenever every provider in the list raises `OutOfRange`,
the single-hour aggregation raises the unhandled `ZeroDivisionError` from
dividing by the zero length of the collected temperature list. -/
theorem C2_all_fail_zero_division_error (services : List PyService)
    (h : ∀ svc ∈ services, ∃ s t l, svc.retrieve = .error (.outOfRange s t l)) :
    Forecast_run services = .error .zeroDivisionError := by
  have hf := fetch_forecast_all_out_of_range services h
  simp only [Forecast_run, hf]
  rfl

/-- C2 witness: a single failing provider. -/
theorem C2_all_fail_zero_division_error_witness :
    Forecast_run [{ name := "P1", retrieve := .error (.outOfRange "P1" 5 3) }] =
      .error .zeroDivisionError :=
  C2_all_fail_zero_division_error _ (by
    intro svc hm
    simp only [List.mem_singleton] at hm
    subst hm
    exact ⟨"P1", 5, 3, rfl⟩)

/-- C7: three providers, one raising `OutOfRange`, two succeeding with
14.3 and 14.9 degrees: the aggregate is average 14.60, max 14.90,
min 14.30, and the failed provider F1 appears in none of the returned
lists, hence in none of the three statistics. -/
theorem C7_three_provider_aggregate :
    Forecast_run
      [{ name := "F1", retrieve := .error (.outOfRange "F1" 3 1) },
       { name := "S1",
         retrieve := .ok { ok := true, time_utc := some 3,
                           temperature_celcius := some (143/10) } },
       { name := "S2",
         retrieve := .ok { ok := true, time_utc := some 3,
                           temperature_celcius := some (149/10) } }] =
    .ok ((["S1", "S2"],
          [{ ok := true, time_utc := some 3, temperature_celcius := some (143/10),
             service := some "S1" },
           { ok := true, time_utc := some 3, temperature_celcius := some (149/10),
             service := some "S2" }]),
         { average := 146/10, max := 149/10, min := 143/10 }) := by
  have hfetch :
      Forecast_fetch_forecast
        [{ name := "F1", retrieve := .error (.outOfRange "F1" 3 1) },
         { name := "S1",
           retrieve := .ok { ok := true, time_utc := some 3,
                             temperature_celcius := some (143/10) } },
         { name := "S2",
           retrieve := .ok { ok := true, time_utc := some 3,
                             temperature_celcius := some (149/10) } }] =
      .ok (["S1", "S2"],
        [{ ok := true, time_utc := some 3, temperature_celcius := some (143/10),
           service := some "S1" },
         { ok := true, time_utc := some 3, temperature_celcius := some (149/10),
           service := some "S2" }]) := rfl
  simp only [Forecast_run, hfetch, Forecast_compute_aggregates, List.mapM_cons,
    List.mapM_nil, bind, Except.bind, pure, Except.pure, List.sum_cons, List.sum_nil,
    List.length_cons, List.length_nil, List.foldl]
  norm_num [py_round_2, round_half_even, Agg.mk.injEq]

/-- C10: `accuweather.find_in_document` on an empty forecast list runs the
`for`-`else` branch without ever binding the loop variable `time`, so
evaluating `time` to report the latest hour raises `NameError` — not
`OutOfRange` and none of the declared exception kinds. -/
theorem C10_accuweather_empty_list_name_error (target : Nat) :
    accuweather_find_in_document target [] = .error (.nameError "time") := rfl

/-- C8: a BOM day block with two hour labels but one temperature cell: the
count-mismatch branch evaluates the misspelled name `BadReponse`, so the
extraction fails with `NameError`, not with the intended `BadResponse`. -/
theorem C8_count_mismatch_raises_name_error :
    bom_process_days [{ times := [10, 11], cells := [.numeral 14] }] =
      .error (.nameError "BadReponse") := by
  rfl

lemma day_records_congr (a b : Option ℚ) (ha : bom_truthy a = false)
    (hb : bom_truthy b = false) :
    ∀ (l₁ : List (Option ℚ)) (times : List Nat) (l₂ : List (Option ℚ)),
      day_records times (l₁ ++ a :: l₂) = day_records times (l₁ ++ b :: l₂)
  | [], [], _ => rfl
  | [], _ :: _, _ => by
    simp [day_records, List.zip_cons_cons, List.filterMap_cons, ha, hb]
  | _ :: _, [], _ => rfl
  | v :: l₁, t :: ts, l₂ => by
    have ih := day_records_congr a b ha hb l₁ ts l₂
    simp only [day_records, List.cons_append, List.zip_cons_cons, List.filterMap_cons] at ih ⊢
    cases hv : bom_truthy v <;> simp [hv, ih]

/-- C9: in the BOM adapter a cell parsing to `Decimal(0)` is falsy exactly
like the em-dash `None`, so the day produces the same forecast list with
either cell — no record for that hour — and a later extraction targeting
that hour exhausts the list and raises `OutOfRange`, instead of returning
a zero-degree record. -/
theorem C9_zero_cell_excluded_like_emdash :
    (∀ (times : List Nat) (pre post : List RawTemp) (rest : List BomDay),
        bom_process_days ({ times := times, cells := pre ++ .numeral 0 :: post } :: rest) =
        bom_process_days ({ times := times, cells := pre ++ .emDash :: post } :: rest)) ∧
    bom_extract 10 [{ times := [10, 11], cells := [.numeral 0, .numeral 15] }] =
      .error (.outOfRange "Bom.gov.au" 10 11) := by
  constructor
  · intro times pre post rest
    simp only [bom_process_days]
    rw [List.mapM_append, List.mapM_cons, List.mapM_append, List.mapM_cons]
    cases hpre : pre.mapM parse_string_temperature with
    | error e => simp [hpre, bind, Except.bind]
    | ok aa =>
      cases hpost : post.mapM parse_string_temperature with
      | error e =>
        simp [hpre, hpost, bind, Except.bind, parse_string_temperature, pure, Except.pure]
      | ok cc =>
        simp only [hpre, hpost, bind, Except.bind, parse_string_temperature, pure, Except.pure,
          List.length_append, List.length_cons]
        by_cases hl : times.length = aa.length + (cc.length + 1)
        · simp only [hl, if_true, ite_true]
          cases bom_process_days rest with
          | error e => rfl
          | ok tail =>
            rw [day_records_congr (some 0) none (by decide) rfl aa times cc]
        · simp [hl]
  · rfl

lemma accuweather_find_aux_miss (target : Nat) :
    ∀ (l : List AccuForecast) (ts : List Nat) (latest : Nat) (acc : Option Nat),
      l.map (fun f => f.epochDateTime) = ts.map some →
      (∀ t ∈ ts, t ≠ target) →
      (ts.getLast? = some latest ∨ (ts = [] ∧ acc = some latest)) →
      accuweather_find_aux target l acc = .error (.outOfRange "Accuweather" target latest)
  | [], ts, latest, acc => by
    intro hmap hne hlast
    have hts : ts = [] := by cases ts <;> simp_all
    subst hts
    rcases hlast with h | ⟨_, hacc⟩
    · simp at h
    · subst hacc
      rfl
  | f :: l, ts, latest, acc => by
    intro hmap hne hlast
    cases ts with
    | nil => simp at hmap
    | cons t ts' =>
      simp only [List.map_cons, List.cons.injEq] at hmap
      obtain ⟨hf, hl⟩ := hmap
      have hyp3 : ts'.getLast? = some latest ∨ (ts' = [] ∧ (some t : Option Nat) = some latest) := by
        rcases hlast with h | ⟨habs, _⟩
        · cases ts' with
          | nil => exact Or.inr ⟨rfl, by simpa using h⟩
          | cons u us =>
            rw [List.getLast?_cons_cons] at h
            exact Or.inl h
        · simp at habs
      have hrec := accuweather_find_aux_miss target l ts' latest (some t) hl
        (fun x hx => hne x (List.mem_cons_of_mem _ hx)) hyp3
      simp only [accuweather_find_aux, hf]
      rw [if_neg (hne t (List.mem_cons_self _ _))]
      exact hrec

lemma met_find_aux_miss (now target issue : Nat) :
    ∀ (l : List MetEntry) (ts : List Nat) (latest : Nat) (acc : Option Nat),
      l.map (fun f => f.time) = ts.map some →
      (∀ t ∈ ts, t ≠ target) →
      (ts.getLast? = some latest ∨ (ts = [] ∧ acc = some latest)) →
      met_find_aux now target issue l acc = .error (.outOfRange "Accuweather" target latest)
  | [], ts, latest, acc => by
    intro hmap hne hlast
    have hts : ts = [] := by cases ts <;> simp_all
    subst hts
    rcases hlast with h | ⟨_, hacc⟩
    · simp at h
    · subst hacc
      rfl
  | f :: l, ts, latest, acc => by
    intro hmap hne hlast
    cases ts with
    | nil => simp at hmap
    | cons t ts' =>
      simp only [List.map_cons, List.cons.injEq] at hmap
      obtain ⟨hf, hl⟩ := hmap
      have hyp3 : ts'.getLast? = some latest ∨ (ts' = [] ∧ (some t : Option Nat) = some latest) := by
        rcases hlast with h | ⟨habs, _⟩
        · cases ts' with
          | nil => exact Or.inr ⟨rfl, by simpa using h⟩
          | cons u us =>
            rw [List.getLast?_cons_cons] at h
            exact Or.inl h
        · simp at habs
      have hrec := met_find_aux_miss now target issue l ts' latest (some t) hl
        (fun x hx => hne x (List.mem_cons_of_mem _ hx)) hyp3
      simp only [met_find_aux, hf]
      rw [if_neg (hne t (List.mem_cons_self _ _))]
      exact hrec

lemma weathercom_find_aux_miss (target : Nat) :
    ∀ (l : List (Nat × ℚ)) (latest : Nat) (acc : Option Nat),
      (∀ p ∈ l, p.1 ≠ target) →
      ((l.map Prod.fst).getLast? = some latest ∨ (l = [] ∧ acc = some latest)) →
      weathercom_find_aux target l acc = .error (.outOfRange "Weather.com" target latest)
  | [], latest, acc => by
    intro hne hlast
    rcases hlast with h | ⟨_, hacc⟩
    · simp at h
    · subst hacc
      rfl
  | (hour, temp) :: l, latest, acc => by
    intro hne hlast
    have hyp3 : ((l.map Prod.fst).getLast? = some latest ∨ (l = [] ∧ (some hour : Option Nat) = some latest)) := by
      rcases hlast with h | ⟨habs, _⟩
      · cases l with
        | nil => exact Or.inr ⟨rfl, by simpa using h⟩
        | cons u us =>
          rw [List.map_cons, List.map_cons, List.getLast?_cons_cons] at h
          exact Or.inl (by rw [List.map_cons]; exact h)
      · simp at habs
    have hrec := weathercom_find_aux_miss target l latest (some hour)
      (fun x hx => hne x (List.mem_cons_of_mem _ hx)) hyp3
    simp only [weathercom_find_aux]
    rw [if_neg (hne (hour, temp) (List.mem_cons_self _ _))]
    exact hrec

lemma gwc_find_aux_miss (target : Nat) :
    ∀ (l : List GwcForecastTime) (ts : List Nat) (latest : Nat) (acc : Option Nat),
      l.map (fun f => f.validDate) = ts.map some →
      (∀ t ∈ ts, t ≠ target) →
      (ts.getLast? = some latest ∨ (ts = [] ∧ acc = some latest)) →
      gwc_find_aux target l acc = .error (.outOfRange "GWC" target latest)
  | [], ts, latest, acc => by
    intro hmap hne hlast
    have hts : ts = [] := by cases ts <;> simp_all
    subst hts
    rcases hlast with h | ⟨_, hacc⟩
    · simp at h
    · subst hacc
      rfl
  | f :: l, ts, latest, acc => by
    intro hmap hne hlast
    cases ts with
    | nil => simp at hmap
    | cons t ts' =>
      simp only [List.map_cons, List.cons.injEq] at hmap
      obtain ⟨hf, hl⟩ := hmap
      have hyp3 : ts'.getLast? = some latest ∨ (ts' = [] ∧ (some t : Option Nat) = some latest) := by
        rcases hlast with h | ⟨habs, _⟩
        · cases ts' with
          | nil => exact Or.inr ⟨rfl, by simpa using h⟩
          | cons u us =>
            rw [List.getLast?_cons_cons] at h
            exact Or.inl h
        · simp at habs
      have hrec := gwc_find_aux_miss target l ts' latest (some t) hl
        (fun x hx => hne x (List.mem_cons_of_mem _ hx)) hyp3
      simp only [gwc_find_aux, hf, normalize_gwc]
      rw [if_neg (hne t (List.mem_cons_self _ _))]
      exact hrec

lemma bom_find_miss (target : Nat) :
    ∀ (l : List BomEntry) (latest : Nat) (acc : Option Nat),
      (∀ f ∈ l, f.time_utc ≠ target) →
      ((l.map (fun f => f.time_utc)).getLast? = some latest ∨ (l = [] ∧ acc = some latest)) →
      bom_find target l acc = .error (.outOfRange "Bom.gov.au" target latest)
  | [], latest, acc => by
    intro hne hlast
    rcases hlast with h | ⟨_, hacc⟩
    · simp at h
    · subst hacc
      rfl
  | f :: l, latest, acc => by
    intro hne hlast
    have hyp3 : ((l.map (fun f => f.time_utc)).getLast? = some latest ∨ (l = [] ∧ (some f.time_utc : Option Nat) = some latest)) := by
      rcases hlast with h | ⟨habs, _⟩
      · cases l with
        | nil => exact Or.inr ⟨rfl, by simpa using h⟩
        | cons u us =>
          rw [List.map_cons, List.map_cons, List.getLast?_cons_cons] at h
          exact Or.inl (by rw [List.map_cons]; exact h)
      · simp at habs
    have hrec := bom_find_miss target l latest (some f.time_utc)
      (fun x hx => hne x (List.mem_cons_of_mem _ hx)) hyp3
    simp only [bom_find]
    rw [if_neg (hne f (List.mem_cons_self _ _))]
    exact hrec

/-- C3 counterexample: a valid Yr.no document (metadata and pointData
present) whose only forecast node covers hour 10 while hour 20 is
requested: `yrno.find_in_document` raises `BadResponse`, not `OutOfRange`,
and its message names no latest hour. -/
theorem C3_counterexample :
    yrno_find_in_document 0 20
        { metadata := some { runended := some 1 },
          pointData := some [{ datatype := "forecast", timeFrom := 10, timeTo := 10,
                               temperature := some 15 }] } =
      .error (.badResponse "Yr.no" "time datatype=forecast") := by
  rfl

/-- C3 (amended): of the six adapters, the four list-scanning
`find_in_document` implementations (Accuweather, Met, Weather.com, GWC)
raise `OutOfRange` reporting the hour of the last entry — the latest hour
when the document is chronological, which the hypotheses assert — and so
does the search loop of `bom.retrieve` (the BOM module defines no
`find_in_document` at all); the Yr.no adapter instead raises `BadResponse`
and reports no hour (the Met adapter moreover mislabels its error with the
service name "Accuweather"). -/
theorem C3_latest_hour_reporting_amended :
    (∀ (target latest : Nat) (doc : List AccuForecast) (ts : List Nat),
        doc.map (fun f => f.epochDateTime) = ts.map some →
        ts.getLast? = some latest →
        (∀ t ∈ ts, t ≤ latest) →
        latest < target →
        accuweather_find_in_document target doc =
          .error (.outOfRange "Accuweather" target latest)) ∧
    (∀ (now target latest issue : Nat) (entries : List MetEntry) (ts : List Nat),
        entries.map (fun f => f.time) = ts.map some →
        ts.getLast? = some latest →
        (∀ t ∈ ts, t ≤ latest) →
        latest < target →
        met_find_in_document now target
            { modelRunDate := some issue, timeSeries := some entries } =
          .error (.outOfRange "Accuweather" target latest)) ∧
    (∀ (target latest : Nat) (hs : List Nat) (temps : List ℚ),
        hs.length = temps.length →
        hs.getLast? = some latest →
        (∀ t ∈ hs, t ≤ latest) →
        latest < target →
        weathercom_find_in_document target
            { processTime := some hs, temperature := some temps } =
          .error (.outOfRange "Weather.com" target latest)) ∧
    (∀ (target latest : Nat) (forecasts : List GwcForecastTime) (ts : List Nat),
        forecasts.map (fun f => f.validDate) = ts.map some →
        ts.getLast? = some latest →
        (∀ t ∈ ts, t ≤ latest) →
        latest < target →
        gwc_find_in_document target { times := some forecasts } =
          .error (.outOfRange "GWC" target latest)) ∧
    (∀ (target latest : Nat) (forecasts : List BomEntry),
        (forecasts.map (fun f => f.time_utc)).getLast? = some latest →
        (∀ f ∈ forecasts, f.time_utc ≤ latest) →
        latest < target →
        bom_find target forecasts none =
          .error (.outOfRange "Bom.gov.au" target latest)) ∧
    (∀ (now target issue : Nat) (nodes : List YrnoTimeNode),
        (∀ nd ∈ nodes, nd.timeFrom < target ∧ nd.timeTo < target) →
        yrno_find_in_document now target
            { metadata := some { runended := some issue }, pointData := some nodes } =
          .error (.badResponse "Yr.no" "time datatype=forecast")) := by
  refine ⟨?_, ?_, ?_, ?_, ?_, ?_⟩
  · intro target latest doc ts hmap hlast hle hlt
    exact accuweather_find_aux_miss target doc ts latest none hmap
      (fun t ht => Nat.ne_of_lt (lt_of_le_of_lt (hle t ht) hlt)) (Or.inl hlast)
  · intro now target latest issue entries ts hmap hlast hle hlt
    exact met_find_aux_miss now target issue entries ts latest none hmap
      (fun t ht => Nat.ne_of_lt (lt_of_le_of_lt (hle t ht) hlt)) (Or.inl hlast)
  · intro target latest hs temps hlen hlast hle hlt
    cases hs with
    | nil => simp at hlast
    | cons h hs' =>
      cases temps with
      | nil => simp at hlen
      | cons t ts' =>
        simp only [weathercom_find_in_document]
        rw [if_neg (not_ne_iff.mpr hlen)]
        refine weathercom_find_aux_miss target ((h :: hs').zip (t :: ts')) latest none
          (fun p hp => ?_) (Or.inl ?_)
        · exact Nat.ne_of_lt
            (lt_of_le_of_lt (hle p.1 (List.of_mem_zip (by exact hp)).1) hlt)
        · rw [List.map_fst_zip _ _ (le_of_eq hlen)]
          exact hlast
  · intro target latest forecasts ts hmap hlast hle hlt
    simp only [gwc_find_in_document, Option.getD_some]
    exact gwc_find_aux_miss target forecasts ts latest none hmap
      (fun t ht => Nat.ne_of_lt (lt_of_le_of_lt (hle t ht) hlt)) (Or.inl hlast)
  · intro target latest forecasts hlast hle hlt
    exact bom_find_miss target forecasts latest none
      (fun f hf => Nat.ne_of_lt (lt_of_le_of_lt (hle f hf) hlt)) (Or.inl hlast)
  · intro now target issue nodes hlt
    have hfind : nodes.find? (yrno_time_node_matches target) = none := by
      rw [List.find?_eq_none]
      intro nd hnd
      have h2 := hlt nd hnd
      simp only [yrno_time_node_matches, decide_eq_true_eq]
      rintro ⟨-, hf | hf, -⟩ <;> omega
    simp only [yrno_find_in_document, hfind]

/-- C3 witness: concrete one-entry documents whose only hour 10 precedes
the target 20, one per adapter. -/
theorem C3_latest_hour_reporting_amended_witness :
    accuweather_find_in_document 20 [{ epochDateTime := some 10, temperatureValue := some 15,
                                       temperatureUnit := some "C" }] =
      .error (.outOfRange "Accuweather" 20 10) ∧
    met_find_in_document 0 20
        { modelRunDate := some 1, timeSeries := some [{ time := some 10, screenTemperature := some 15 }] } =
      .error (.outOfRange "Accuweather" 20 10) ∧
    weathercom_find_in_document 20 { processTime := some [10], temperature := some [15] } =
      .error (.outOfRange "Weather.com" 20 10) ∧
    gwc_find_in_document 20
        { times := some [{ validDate := some 10,
                           points := some [{ dataType := some "temp", value := some 59 }] }] } =
      .error (.outOfRange "GWC" 20 10) ∧
    bom_find 20 [{ time_utc := 10, temperature_celcius := 15 }] none =
      .error (.outOfRange "Bom.gov.au" 20 10) ∧
    yrno_find_in_document 0 20
        { metadata := some { runended := some 2 },
          pointData := some [{ datatype := "forecast", timeFrom := 10, timeTo := 11,
                               temperature := some 15 }] } =
      .error (.badResponse "Yr.no" "time datatype=forecast") := by
  obtain ⟨h1, h2, h3, h4, h5, h6⟩ := C3_latest_hour_reporting_amended
  refine ⟨?_, ?_, ?_, ?_, ?_, ?_⟩
  · exact h1 20 10 _ [10] (by simp) (by simp) (by simp) (by decide)
  · exact h2 0 20 10 1 _ [10] (by simp) (by simp) (by simp) (by decide)
  · exact h3 20 10 [10] [15] (by simp) (by simp) (by simp) (by decide)
  · exact h4 20 10 _ [10] (by simp) (by simp) (by simp) (by decide)
  · exact h5 20 10 _ (by simp) (by simp) (by decide)
  · exact h6 0 20 2 _ (by intro nd hnd; simp at hnd; subst hnd; exact ⟨by decide, by decide⟩)

lemma foldl_dict_insert_nodup :
    ∀ (dates : List Nat) (acc : List (Nat × List (String × Entry))),
      (∀ h ∈ dates, ∀ p ∈ acc, p.1 ≠ h) →
      dates.Nodup →
      dates.foldl (fun d h => dict_insert d h []) acc = acc ++ dates.map (fun h => (h, []))
  | [], acc => by
    intro _ _
    simp
  | h :: rest, acc => by
    intro hdisj hnd
    rw [List.nodup_cons] at hnd
    have hins : dict_insert acc h ([] : List (String × Entry)) = acc ++ [(h, [])] := by
      unfold dict_insert
      rw [if_neg]
      simp only [List.any_eq_true, beq_iff_eq, not_exists]
      intro p hp
      exact hdisj h (List.mem_cons_self _ _) p hp.1 hp.2
    have hrec := foldl_dict_insert_nodup rest (acc ++ [(h, [])])
      (fun x hx p hp => by
        rcases List.mem_append.mp hp with hpa | hpe
        · exact hdisj x (List.mem_cons_of_mem _ hx) p hpa
        · simp only [List.mem_singleton] at hpe
          subst hpe
          intro hc
          have hhx : h = x := hc
          exact hnd.1 (hhx ▸ hx))
      hnd.2
    rw [List.foldl_cons, hins, hrec]
    simp

lemma prepopulate_nodup (dates : List Nat) (hnd : dates.Nodup) :
    prepopulate_hours dates = dates.map (fun h => (h, [])) := by
  have := foldl_dict_insert_nodup dates [] (by simp) hnd
  simpa [prepopulate_hours] using this

lemma process_services_all_http (dates : List Nat) :
    ∀ (services : List RangeService) (st : HState),
      (∀ svc ∈ services, ∀ n, ∃ s, svc.retrieve_document n = .error (.httpError s)) →
      process_services dates services st =
        .ok { st with
              services := st.services ++ services.map (fun svc => svc.name),
              events := st.events ++ services.flatMap (fun svc =>
                [Event.fetchAttempt svc.name 1, Event.rotate "ACCUWEATHER",
                 Event.fetchAttempt svc.name 2]) }
  | [], st => by
    intro _
    simp [process_services]
  | svc :: rest, st => by
    intro h
    obtain ⟨s0, h0⟩ := h svc (by simp) 0
    obtain ⟨s1, h1⟩ := h svc (by simp) 1
    simp only [process_services, h0, h1]
    rw [process_services_all_http dates rest _ (fun x hx n => h x (by simp [hx]) n)]
    simp [List.append_assoc]

/-- C5: for a duplicate-free list of requested hours, when every provider
raises `HttpError` on both fetch attempts the hour-range aggregation still
succeeds, its forecasts mapping has exactly one key per requested hour and
every key is bound to the empty provider mapping — the pre-populated shape
is returned unchanged. -/
theorem C5_prepopulated_keys_stable (dates : List Nat) (services : List RangeService)
    (hnd : dates.Nodup)
    (hfail : ∀ svc ∈ services, ∀ n, ∃ s, svc.retrieve_document n = .error (.httpError s)) :
    HourlyForecast_fetch_forecast services dates =
      .ok { services := services.map (fun svc => svc.name),
            forecasts := dates.map (fun h => (h, [])),
            events := services.flatMap (fun svc =>
              [Event.fetchAttempt svc.name 1, Event.rotate "ACCUWEATHER",
               Event.fetchAttempt svc.name 2]) } := by
  unfold HourlyForecast_fetch_forecast
  rw [process_services_all_http dates services _ hfail]
  simp [prepopulate_nodup dates hnd]

/-- C5 witness: two requested hours, one provider failing transport on
every attempt. -/
theorem C5_prepopulated_keys_stable_witness :
    HourlyForecast_fetch_forecast
      [{ name := "SvcA", retrieve_document := fun _ => .error (.httpError "SvcA"),
         find_in_document := fun _ _ => .ok { ok := true } }] [7, 8] =
      .ok { services := ["SvcA"], forecasts := [(7, []), (8, [])],
            events := [.fetchAttempt "SvcA" 1, .rotate "ACCUWEATHER",
                       .fetchAttempt "SvcA" 2] } := by
  have h := C5_prepopulated_keys_stable [7, 8]
    [{ name := "SvcA", retrieve_document := fun _ => .error (.httpError "SvcA"),
       find_in_document := fun _ _ => .ok { ok := true } }]
    (by decide)
    (by
      intro svc hm n
      simp only [List.mem_singleton] at hm
      subst hm
      exact ⟨"SvcA", rfl⟩)
  simpa using h

/-- C6: a provider whose document fetch raises `HttpError` receives exactly
one remediation — one rotation request for the "ACCUWEATHER" key followed
by exactly one retried fetch — and when the retry also raises `HttpError`
the provider is skipped for the whole range: the aggregation continues on
the remaining providers from an unchanged forecasts mapping, with only the
service-name list and the effect trace extended, and does not fail. -/
theorem C6_transport_error_rotate_retry_skip (dates : List Nat) (svc : RangeService)
    (rest : List RangeService) (st : HState)
    (h : ∀ n, ∃ s, svc.retrieve_document n = .error (.httpError s)) :
    process_services dates (svc :: rest) st =
      process_services dates rest
        { st with services := st.services ++ [svc.name],
                  events := st.events ++ [Event.fetchAttempt svc.name 1,
                    Event.rotate "ACCUWEATHER", Event.fetchAttempt svc.name 2] } := by
  obtain ⟨s0, h0⟩ := h 0
  obtain ⟨s1, h1⟩ := h 1
  simp only [process_services, h0, h1]
  congr 1
  simp

/-- C6 witness: a single always-failing provider over the one-hour range. -/
theorem C6_transport_error_rotate_retry_skip_witness :
    process_services [4]
      [{ name := "SvcB", retrieve_document := fun _ => .error (.httpError "SvcB"),
         find_in_document := fun _ _ => .ok { ok := true } }]
      { services := [], forecasts := [(4, [])], events := [] } =
      .ok { services := ["SvcB"], forecasts := [(4, [])],
            events := [.fetchAttempt "SvcB" 1, .rotate "ACCUWEATHER",
                       .fetchAttempt "SvcB" 2] } := by
  rw [C6_transport_error_rotate_retry_skip [4] _ [] _ (fun _ => ⟨"SvcB", rfl⟩)]
  rfl
